import Mathlib

/-!
Shallow embedding of the Fordefi custodial-signing client
(`src/fordefi/client.ts`) and its batch signing adapter
(the `fordefiSigner` module), together with proofs about the
claims of the specification.

Conventions of the embedding:
* JavaScript strings are Lean `String`s; byte buffers are `List Nat`.
* JavaScript `undefined`/absent optional values are `Option.none`;
  JS truthiness of a string-valued field is `tokenTruthy` below
  (`none` and the empty string are falsy).
* Thrown JS errors are the `Except.error` branch of `Except String`,
  carrying the error message.
* Network I/O is modelled by passing the outcome of each HTTP
  exchange as an explicit argument (the server oracle); the client
  code that consumes that outcome is translated statement by
  statement from the source.
-/

namespace Fordefi

/-! ## Base64 (Node `Buffer.from(_, "base64")` and `toString("base64")`) -/

/-- Value of one character of the standard base64 alphabet; `none` for
characters outside the alphabet (Node's decoder skips those, including
the `=` padding). -/
def base64CharValue (c : Char) : Option Nat :=
  if 'A' ≤ c ∧ c ≤ 'Z' then some (c.toNat - 65)
  else if 'a' ≤ c ∧ c ≤ 'z' then some (c.toNat - 97 + 26)
  else if '0' ≤ c ∧ c ≤ '9' then some (c.toNat - 48 + 52)
  else if c = '+' then some 62
  else if c = '/' then some 63
  else none

/-- Bit-accumulating base64 decoding loop: consumes 6-bit values, emits a
byte each time 8 or more bits are available. -/
def base64DecodeAux : List Nat → Nat → Nat → List Nat
  | [], _, _ => []
  | v :: rest, acc, bits =>
    let acc2 := acc * 64 + v
    let bits2 := bits + 6
    if 8 ≤ bits2 then
      (acc2 / 2 ^ (bits2 - 8)) % 256 ::
        base64DecodeAux rest (acc2 % 2 ^ (bits2 - 8)) (bits2 - 8)
    else
      base64DecodeAux rest acc2 bits2

/-- Decoding of a base64 string to bytes, as `Buffer.from(s, "base64")`. -/
def base64Decode (s : String) : List Nat :=
  base64DecodeAux (s.data.filterMap base64CharValue) 0 0

/-- Character of the standard base64 alphabet at a given 6-bit value. -/
def base64CharOf (n : Nat) : Char :=
  ("ABCDEFGHIJKLMNOPQRSTUVWXYZabcdefghijklmnopqrstuvwxyz0123456789+/").data.getD n 'A'

/-- Standard base64 encoding of a byte list, three bytes at a time, with
`=` padding, as `Buffer.from(bytes).toString("base64")`. -/
def base64EncodeChunks : List Nat → List Char
  | [] => []
  | [b0] => [base64CharOf (b0 / 4), base64CharOf (b0 % 4 * 16), '=', '=']
  | [b0, b1] => [base64CharOf (b0 / 4), base64CharOf (b0 % 4 * 16 + b1 / 16),
      base64CharOf (b1 % 16 * 4), '=']
  | b0 :: b1 :: b2 :: rest =>
    base64CharOf (b0 / 4) :: base64CharOf (b0 % 4 * 16 + b1 / 16) ::
      base64CharOf (b1 % 16 * 4 + b2 / 64) :: base64CharOf (b2 % 64) ::
      base64EncodeChunks rest

/-- Base64 encoding of a byte list as a string. -/
def base64Encode (bytes : List Nat) : String :=
  String.mk (base64EncodeChunks bytes)

/-! ## Data model (`client.ts` lines 12-65) -/

/-- Transaction state of a Fordefi job (enum `TransactionState`). -/
inductive TransactionState where
  | created
  | waitingForApproval
  | waitingForSignature
  | readyForPush
  | pushed
  | completed
  | failed
  | aborted
deriving DecidableEq

/-- Terminal states per the data model: Completed, Failed, Aborted. -/
def isTerminalState : TransactionState → Bool
  | TransactionState.completed => true
  | TransactionState.failed => true
  | TransactionState.aborted => true
  | _ => false

/-- Transient states per the data model: Created, WaitingForApproval,
WaitingForSignature, ReadyForPush, Pushed. -/
def isTransientState : TransactionState → Bool
  | TransactionState.created => true
  | TransactionState.waitingForApproval => true
  | TransactionState.waitingForSignature => true
  | TransactionState.readyForPush => true
  | TransactionState.pushed => true
  | _ => false

/-- One element of the `signatures` array of a transaction response:
a base64 signature string and the signing public key. -/
structure SignatureEntry where
  signature : String
  publicKey : String
deriving DecidableEq

/-- Response of the Fordefi transaction endpoints (interface
`TransactionResponse`); `signatures` is an optional field. -/
structure TransactionResponse where
  id : String
  creationTime : String
  modificationTime : String
  state : TransactionState
  vaultId : String
  type : String
  chainUniqueId : String
  chainName : String
  transactionHash : Option String
  signatures : Option (List SignatureEntry)
deriving DecidableEq

/-! ## Signing adapter (`fordefiSigner`, response validation) -/

/-- Validation and extraction of the signature bytes for the batch member
at `index`, translated from the adapter body: reject a missing or empty
`signatures` field, take the first entry, base64-decode it, and reject a
decoded length other than 64 bytes. -/
def extractMemberSignature (index : Nat) (response : TransactionResponse) :
    Except String (List Nat) :=
  match response.signatures with
  | none => Except.error ("No signature returned for transaction " ++ toString index)
  | some [] => Except.error ("No signature returned for transaction " ++ toString index)
  | some (s0 :: _) =>
    let signatureBuffer := base64Decode s0.signature
    if signatureBuffer.length ≠ 64 then
      Except.error ("Invalid signature length: " ++ toString signatureBuffer.length ++
        ", expected 64 bytes")
    else
      Except.ok signatureBuffer

/-- Combination of the member results as `Promise.all`: the batch result
is the list of member values when every member succeeded, and a member
error otherwise. -/
def collectResults {α : Type} : List (Except String α) → Except String (List α)
  | [] => Except.ok []
  | r :: rest =>
    match r with
    | Except.error e => Except.error e
    | Except.ok a =>
      match collectResults rest with
      | Except.error e => Except.error e
      | Except.ok as2 => Except.ok (a :: as2)

/-- Index-passing map, as JavaScript `array.map((x, index) => ...)`,
generalized over the starting index for the sake of induction. -/
def mapWithIndexFrom {α β : Type} (f : Nat → α → β) : Nat → List α → List β
  | _, [] => []
  | n, a :: rest => f n a :: mapWithIndexFrom f (n + 1) rest

/-- Response-processing half of the adapter's `signAndSendTransactions`:
given the per-member transaction responses (in input order), validate and
extract each member's signature bytes and combine them as `Promise.all`. -/
def signAndSendTransactions (responses : List TransactionResponse) :
    Except String (List (List Nat)) :=
  collectResults (mapWithIndexFrom extractMemberSignature 0 responses)

/-- Predicate on a member response under which the adapter's validation
rejects it: `signatures` missing, empty, or first signature decoding to a
byte length other than 64. -/
def memberSignatureInvalid (r : TransactionResponse) : Prop :=
  match r.signatures with
  | none => True
  | some [] => True
  | some (s0 :: _) => (base64Decode s0.signature).length ≠ 64

/-! ## Idempotence keys and submission payloads -/

/-- Options accepted by `createAndWaitTransaction` and by the signing
adapter factory. -/
structure TxOptions where
  note : Option String := none
  idempotenceId : Option String := none
  signMode : Option String := none
  pushMode : Option String := none
  timeout : Option Nat := none
deriving DecidableEq

/-- Per-member idempotence id derived by the adapter:
`options.idempotenceId ? options.idempotenceId + "-" + index : undefined`.
A JS string is truthy exactly when it is nonempty, so an empty base key
behaves like an absent one. -/
def deriveIdempotenceId (base : Option String) (index : Nat) : Option String :=
  match base with
  | none => none
  | some s => if s = "" then none else some (s ++ "-" ++ toString index)

/-- Body of the POST to the submit-and-wait endpoint (interface
`SolanaTransactionRequest` as filled in by `createAndWaitTransaction`).
The `timeout` member is only attached when `options.timeout` is truthy,
so a zero timeout is dropped. -/
structure SolanaTransactionRequest where
  type : String
  vault_id : String
  transaction : String
  chain : String
  idempotence_id : Option String
  note : Option String
  sign_mode : Option String
  push_mode : Option String
  timeout : Option Nat
deriving DecidableEq

/-- Payload construction of `createAndWaitTransaction` (lines 258-287):
base64-encode the transaction bytes and assemble the request record. -/
def buildTxRequest (vaultId : String) (transaction : List Nat) (chain : String)
    (options : TxOptions) : SolanaTransactionRequest :=
  { type := "solana_transaction"
    vault_id := vaultId
    transaction := base64Encode transaction
    chain := chain
    idempotence_id := options.idempotenceId
    note := options.note
    sign_mode := options.signMode
    push_mode := options.pushMode
    timeout := match options.timeout with
      | some t => if t ≠ 0 then some t else none
      | none => none }

/-- Submission payloads issued by the adapter for a batch, one per
transaction in input order: member `index` gets the shared options with
its derived idempotence id (adapter lines 388-403). -/
def batchSubmissionPayloads (vaultId chain : String) (options : TxOptions)
    (transactions : List (List Nat)) : List SolanaTransactionRequest :=
  mapWithIndexFrom
    (fun index tx => buildTxRequest vaultId tx chain
      { options with idempotenceId := deriveIdempotenceId options.idempotenceId index })
    0 transactions

/-! ## Authentication session (`authenticate`, lines 106-134) -/

/-- Mutable state of a `FordefiClient` instance: the cached access token
field (`string | null`, also `undefined` or empty after a degenerate
server reply; both map to `none` resp. `some ""` here). -/
structure ClientState where
  accessToken : Option String
deriving DecidableEq

/-- JS truthiness of the optional token field: `null`/`undefined` and the
empty string are falsy, any nonempty string is truthy. -/
def tokenTruthy : Option String → Bool
  | none => false
  | some s => if s = "" then false else true

/-- Outcome of the `POST /auth` exchange as seen by the client:
`Except.error m` when axios rejects (transport failure or non-2xx status,
since the auth call uses the default `validateStatus`), carrying the
axios error message; `Except.ok f` when it resolves, where `f` is the
`accessToken` field of the response body (`none` when absent). -/
structure AuthServer where
  authOutcome : Except String (Option String)

/-- Try-block of `authenticate` (lines 117-129): perform the auth POST,
store the `accessToken` field of the reply into the cache, and fail when
the stored value is falsy. Returns the result together with the updated
client state; the network exchange happens exactly once here. -/
def authenticateBody (server : AuthServer) (st : ClientState) :
    Except String String × ClientState :=
  match server.authOutcome with
  | Except.error e => (Except.error e, st)
  | Except.ok tokenField =>
    let st2 : ClientState := { st with accessToken := tokenField }
    if tokenTruthy tokenField then
      (Except.ok (tokenField.getD ""), st2)
    else
      (Except.error "No access token received from Fordefi", st2)

/-- The `authenticate` method (lines 106-134): return the cached token
when it is truthy, otherwise run the try-block; its catch clause replaces
every failure by the generic message. The third component counts the
network calls performed by this invocation. -/
def authenticate (server : AuthServer) (st : ClientState) :
    Except String String × ClientState × Nat :=
  if tokenTruthy st.accessToken then
    (Except.ok (st.accessToken.getD ""), st, 0)
  else
    match authenticateBody server st with
    | (Except.ok tok, st2) => (Except.ok tok, st2, 1)
    | (Except.error _, st2) => (Except.error "Failed to authenticate with Fordefi", st2, 1)

/-! ## Generic request (`request`, lines 143-206) -/

/-- Reply delivered for the main HTTP exchange of `request`: status code
and parsed body. Because the call passes `validateStatus: () => true`,
every received status is delivered here rather than thrown. -/
structure HttpReply (α : Type) where
  status : Nat
  data : α

/-- Outcome of the main HTTP exchange: either a reply was received (any
status) or no response arrived at all (DNS/connection failure), in which
case axios rejects with the transport message. -/
inductive TransportOutcome (α : Type) where
  | response : HttpReply α → TransportOutcome α
  | failure : String → TransportOutcome α

/-- Error value flowing into the catch clause of `request`: a plain JS
`Error` (no `response` property — this covers both transport failures and
the error thrown by the status check inside the try block), or an axios
error that carries a response. -/
inductive ThrownError (α : Type) where
  | plain : String → ThrownError α
  | axiosWithResponse : Nat → α → ThrownError α

/-- Error message built for a non-2xx reply (lines 180-186 and 194-200):
the status line, then either the `JSON.stringify`-ed body or, when
stringification throws, the raw body text. -/
def httpErrorMessage (status : Nat) (detail : Option String) (raw : String) : String :=
  match detail with
  | some d => "HTTP error occurred: status = " ++ toString status ++ "\nError details: " ++ d
  | none => "HTTP error occurred: status = " ++ toString status ++ "\nRaw response: " ++ raw

/-- Catch clause of `request` (lines 191-205): an error carrying a
response is rendered as an HTTP error message; every other error — which
includes the client's own non-2xx `Error`, since a plain `Error` has no
`response` property — is wrapped as a network error. -/
def requestCatch {α : Type} (stringify : α → Option String) (raw : α → String) :
    ThrownError α → String
  | ThrownError.axiosWithResponse status data =>
    httpErrorMessage status (stringify data) (raw data)
  | ThrownError.plain msg => "Network error occurred: " ++ msg

/-- Try block of `request` (lines 152-190): a transport failure is the
axios rejection (a plain error); a delivered reply outside [200,300)
raises the HTTP error message as a plain `Error`; a 2xx reply returns its
body. `stringify` and `raw` model the runtime primitives `JSON.stringify`
and string coercion applied to the parsed body. -/
def requestTry {α : Type} (stringify : α → Option String) (raw : α → String)
    (transport : TransportOutcome α) : Except (ThrownError α) α :=
  match transport with
  | TransportOutcome.failure msg => Except.error (ThrownError.plain msg)
  | TransportOutcome.response r =>
    if r.status < 200 ∨ 300 ≤ r.status then
      Except.error (ThrownError.plain (httpErrorMessage r.status (stringify r.data) (raw r.data)))
    else
      Except.ok r.data

/-- Response-classification core of `request`: the try block followed by
the catch clause. -/
def requestCore {α : Type} (stringify : α → Option String) (raw : α → String)
    (transport : TransportOutcome α) : Except String α :=
  match requestTry stringify raw transport with
  | Except.ok v => Except.ok v
  | Except.error e => Except.error (requestCatch stringify raw e)

/-- The `request` method: authenticate first (propagating its failure),
then run the main exchange and classify its outcome. -/
def request {α : Type} (stringify : α → Option String) (raw : α → String)
    (server : AuthServer) (transport : TransportOutcome α) (st : ClientState) :
    Except String α × ClientState :=
  match authenticate server st with
  | (Except.error e, st2, _) => (Except.error e, st2)
  | (Except.ok _, st2, _) => (requestCore stringify raw transport, st2)

/-- The `createAndWaitTransaction` method (lines 246-294): build the
payload (`buildTxRequest`), POST it via `request`, and return the
response; its catch clause logs and rethrows the error unchanged, so the
result is exactly the result of `request`. -/
def createAndWaitTransaction (stringify : TransactionResponse → Option String)
    (raw : TransactionResponse → String) (server : AuthServer)
    (transport : TransportOutcome TransactionResponse) (st : ClientState) :
    Except String TransactionResponse × ClientState :=
  request stringify raw server transport st

/-! ## Interleaving model of concurrent first authentication -/

/-- Progress of one asynchronous caller of `authenticate`: it has not
started, it has passed the cache check and awaits the auth POST it
issued, or it has finished with a result. The suspension point is the
`await this.api.post(...)` between the cache check and the cache write. -/
inductive CallerPhase where
  | start
  | awaitingAuth
  | done : Except String String → CallerPhase

/-- Shared state of several concurrent callers: the client's token cache,
each caller's phase, and how many auth POSTs have been issued. -/
structure RaceState where
  cache : Option String
  callers : List CallerPhase
  requestsIssued : Nat

/-- One scheduler step advancing caller `i`: from `start` it runs the
synchronous part of `authenticate` up to the await (returning the cached
token when truthy, otherwise issuing the auth POST); from `awaitingAuth`
its response arrives and it runs the remainder (store the token field,
produce the result through the catch clause). -/
def raceStep (server : AuthServer) (st : RaceState) (i : Nat) : RaceState :=
  match st.callers[i]? with
  | none => st
  | some CallerPhase.start =>
    if tokenTruthy st.cache then
      { st with callers := st.callers.set i (CallerPhase.done (Except.ok (st.cache.getD ""))) }
    else
      { st with callers := st.callers.set i CallerPhase.awaitingAuth
                requestsIssued := st.requestsIssued + 1 }
  | some CallerPhase.awaitingAuth =>
    match server.authOutcome with
    | Except.error _ =>
      { st with callers :=
          st.callers.set i (CallerPhase.done (Except.error "Failed to authenticate with Fordefi")) }
    | Except.ok tokenField =>
      { st with cache := tokenField
                callers := st.callers.set i (CallerPhase.done
                  (if tokenTruthy tokenField then Except.ok (tokenField.getD "")
                   else Except.error "Failed to authenticate with Fordefi")) }
  | some (CallerPhase.done _) => st

/-- Run of a schedule (a list of caller indices), stepping the named
caller at each event. -/
def raceRun (server : AuthServer) : RaceState → List Nat → RaceState
  | st, [] => st
  | st, i :: rest => raceRun server (raceStep server st i) rest

/-! ## Helper lemmas -/

/-- A member error makes the combined batch result an error. -/
theorem collectResults_error_of_mem {α : Type} {l : List (Except String α)} {e : String}
    (h : Except.error e ∈ l) : ∃ e2, collectResults l = Except.error e2 := by
  induction l with
  | nil => cases h
  | cons r rest ih =>
    cases h with
    | head => exact ⟨e, rfl⟩
    | tail _ hmem =>
      cases r with
      | error e3 => exact ⟨e3, rfl⟩
      | ok a =>
        obtain ⟨e2, he2⟩ := ih hmem
        exact ⟨e2, by simp [collectResults, he2]⟩

/-- When every member result is a success, the combined batch result is a
success. -/
theorem collectResults_ok_of_forall {α : Type} (l : List (Except String α))
    (h : ∀ r ∈ l, ∃ a, r = Except.ok a) : ∃ as2, collectResults l = Except.ok as2 := by
  induction l with
  | nil => exact ⟨[], rfl⟩
  | cons r rest ih =>
    obtain ⟨a, ha⟩ := h r (List.mem_cons_self r rest)
    obtain ⟨as2, has⟩ := ih (fun x hx => h x (List.mem_cons_of_mem _ hx))
    exact ⟨a :: as2, by simp [ha, collectResults, has]⟩

/-- Every input element appears, under some index, in the index-passing
map of a list. -/
theorem mapWithIndexFrom_exists_of_mem {α β : Type} {f : Nat → α → β} {a : α} {l : List α}
    (ha : a ∈ l) : ∀ n : Nat, ∃ i, f i a ∈ mapWithIndexFrom f n l := by
  induction l with
  | nil => cases ha
  | cons b rest ih =>
    intro n
    cases ha with
    | head => exact ⟨n, by simp [mapWithIndexFrom]⟩
    | tail _ hmem =>
      obtain ⟨i, hi⟩ := ih hmem (n + 1)
      exact ⟨i, by simp [mapWithIndexFrom]; exact Or.inr hi⟩

/-- Every element of the index-passing map comes from an input element. -/
theorem mem_mapWithIndexFrom {α β : Type} {f : Nat → α → β} {b : β} :
    ∀ {n : Nat} {l : List α}, b ∈ mapWithIndexFrom f n l → ∃ i a, a ∈ l ∧ b = f i a := by
  intro n l
  induction l generalizing n with
  | nil => intro h; simp [mapWithIndexFrom] at h
  | cons x rest ih =>
    intro h
    simp only [mapWithIndexFrom, List.mem_cons] at h
    cases h with
    | inl hb => exact ⟨n, x, List.mem_cons_self x rest, hb⟩
    | inr hb =>
      obtain ⟨i, a, ha, hba⟩ := ih hb
      exact ⟨i, a, List.mem_cons_of_mem _ ha, hba⟩

/-- Positional description of the index-passing map. -/
theorem mapWithIndexFrom_getElem? {α β : Type} (f : Nat → α → β) :
    ∀ (l : List α) (n i : Nat), (mapWithIndexFrom f n l)[i]? = (l[i]?).map (f (n + i)) := by
  intro l
  induction l with
  | nil => intro n i; simp [mapWithIndexFrom]
  | cons x rest ih =>
    intro n i
    cases i with
    | zero => simp [mapWithIndexFrom]
    | succ j =>
      have harith : n + 1 + j = n + (j + 1) := by omega
      simp [mapWithIndexFrom, ih (n + 1) j, harith]

/-- An invalid member response makes its extraction fail at every index. -/
theorem extractMemberSignature_error_of_invalid {r : TransactionResponse}
    (h : memberSignatureInvalid r) (i : Nat) :
    ∃ e, extractMemberSignature i r = Except.error e := by
  unfold extractMemberSignature
  unfold memberSignatureInvalid at h
  cases hs : r.signatures with
  | none => simp [hs]
  | some l =>
    cases l with
    | nil => simp [hs]
    | cons s0 rest =>
      rw [hs] at h
      simp only [] at h
      simp [hs, h]

/-- A valid member response makes its extraction succeed at every index. -/
theorem extractMemberSignature_ok_of_valid {r : TransactionResponse}
    (h : ¬ memberSignatureInvalid r) (i : Nat) :
    ∃ sig, extractMemberSignature i r = Except.ok sig := by
  unfold extractMemberSignature
  unfold memberSignatureInvalid at h
  cases hs : r.signatures with
  | none => rw [hs] at h; exact absurd trivial h
  | some l =>
    cases l with
    | nil => rw [hs] at h; exact absurd trivial h
    | cons s0 rest =>
      rw [hs] at h
      simp only [] at h
      simp [hs, h]

/-! ## Claim C1 -/

/-- C1 (amended): a batch member response with a missing `signatures`
field, an empty signature list, or a first signature whose base64-decoded
length is not 64 bytes makes the whole batch call fail; the adapter only
requires at least one returned signature and validates the first one, so
a batch whose members all carry a valid first signature succeeds even if
some member carries more than one signature. -/
theorem claim1_theorem :
    (∀ (responses : List TransactionResponse) (r : TransactionResponse),
        r ∈ responses → memberSignatureInvalid r →
        ∃ e, signAndSendTransactions responses = Except.error e)
  ∧ (∀ responses : List TransactionResponse,
        (∀ r ∈ responses, ¬ memberSignatureInvalid r) →
        ∃ sigs, signAndSendTransactions responses = Except.ok sigs) := by
  constructor
  · intro responses r hr hbad
    obtain ⟨i, hi⟩ := mapWithIndexFrom_exists_of_mem (f := extractMemberSignature) hr 0
    obtain ⟨e, he⟩ := extractMemberSignature_error_of_invalid hbad i
    rw [he] at hi
    exact collectResults_error_of_mem hi
  · intro responses hall
    apply collectResults_ok_of_forall
    intro x hx
    obtain ⟨i, a, ha, hxa⟩ := mem_mapWithIndexFrom hx
    obtain ⟨sig, hsig⟩ := extractMemberSignature_ok_of_valid (hall a ha) i
    exact ⟨sig, by rw [hxa, hsig]⟩

/-- Base64 string of 86 `A` characters, decoding to 64 zero bytes (the
canonical encoding would carry two `=` padding characters, which the
decoder skips anyway). -/
def sigOf64ZeroBytes : String := String.mk (List.replicate 86 'A')

/-- Member response carrying two signatures whose first entry is a valid
64-byte signature. -/
def respTwoSignatures : TransactionResponse :=
  { id := "tx-1"
    creationTime := "2024-01-01T00:00:00Z"
    modificationTime := "2024-01-01T00:00:10Z"
    state := TransactionState.completed
    vaultId := "vault-1"
    type := "solana_transaction"
    chainUniqueId := "solana_mainnet"
    chainName := "Solana Mainnet"
    transactionHash := none
    signatures := some [⟨sigOf64ZeroBytes, "pk-1"⟩, ⟨sigOf64ZeroBytes, "pk-2"⟩] }

/-- C1 counterexample: a member response returning two signatures — a
count other than one — does not fail validation; the batch succeeds with
the first signature's bytes, refuting the clause that a signature count
other than one is a validation failure. -/
theorem claim1_counterexample :
    signAndSendTransactions [respTwoSignatures] = Except.ok [List.replicate 64 0]
  ∧ (respTwoSignatures.signatures.getD []).length = 2 := ⟨rfl, rfl⟩

/-- Member response with no `signatures` field at all. -/
def respMissingSignatures : TransactionResponse :=
  { id := "tx-2"
    creationTime := "2024-01-01T00:00:00Z"
    modificationTime := "2024-01-01T00:00:10Z"
    state := TransactionState.completed
    vaultId := "vault-1"
    type := "solana_transaction"
    chainUniqueId := "solana_mainnet"
    chainName := "Solana Mainnet"
    transactionHash := none
    signatures := none }

/-- Witness for C1: a concrete batch whose single member response lacks
the `signatures` field fails as a whole. -/
theorem claim1_witness :
    ∃ e, signAndSendTransactions [respMissingSignatures] = Except.error e :=
  claim1_theorem.1 [respMissingSignatures] respMissingSignatures
    (List.mem_cons_self _ _) trivial

/-! ## Claim C2 -/

/-- C2 (amended): when a nonempty base idempotence key is supplied, batch
member `i` is submitted with idempotence id `base-i`; when no base key is
supplied, every member is submitted with no idempotence id (an empty base
string is falsy in JS and also yields no id, see the counterexample). -/
theorem claim2_theorem :
    (∀ (vaultId chain : String) (options : TxOptions) (transactions : List (List Nat))
        (s : String) (i : Nat),
        options.idempotenceId = some s → s ≠ "" → i < transactions.length →
        ((batchSubmissionPayloads vaultId chain options transactions)[i]?).map
          SolanaTransactionRequest.idempotence_id = some (some (s ++ "-" ++ toString i)))
  ∧ (∀ (vaultId chain : String) (options : TxOptions) (transactions : List (List Nat)) (i : Nat),
        options.idempotenceId = none → i < transactions.length →
        ((batchSubmissionPayloads vaultId chain options transactions)[i]?).map
          SolanaTransactionRequest.idempotence_id = some none) := by
  constructor
  · intro vaultId chain options transactions s i hs hne hi
    unfold batchSubmissionPayloads
    rw [mapWithIndexFrom_getElem?, List.getElem?_eq_getElem hi]
    simp [buildTxRequest, deriveIdempotenceId, hs, hne]
  · intro vaultId chain options transactions i hs hi
    unfold batchSubmissionPayloads
    rw [mapWithIndexFrom_getElem?, List.getElem?_eq_getElem hi]
    simp [buildTxRequest, deriveIdempotenceId, hs]

/-- Options carrying an empty-string base idempotence key. -/
def emptyBaseOptions : TxOptions := { idempotenceId := some "" }

/-- C2 counterexample: with the empty string supplied as base key, member
0 is submitted with no idempotence id rather than with id `-0`, refuting
the claim for the supplied base string `""`. -/
theorem claim2_counterexample :
    ((batchSubmissionPayloads "vault-1" "solana_mainnet" emptyBaseOptions [[0]])[0]?).map
      SolanaTransactionRequest.idempotence_id = some none
  ∧ some (none : Option String) ≠ some (some ("" ++ "-" ++ toString 0)) :=
  ⟨rfl, by decide⟩

/-- Options carrying the base idempotence key `base`. -/
def baseOptions : TxOptions := { idempotenceId := some "base" }

/-- Options carrying no idempotence key. -/
def noKeyOptions : TxOptions := {}

/-- Witness for C2: in a two-transaction batch with base key `base`,
member 1 carries idempotence id `base-1`; with no base key, member 0
carries no idempotence id. -/
theorem claim2_witness :
    ((batchSubmissionPayloads "vault-1" "solana_mainnet" baseOptions [[0], [1]])[1]?).map
      SolanaTransactionRequest.idempotence_id = some (some ("base" ++ "-" ++ toString 1))
  ∧ ((batchSubmissionPayloads "vault-1" "solana_mainnet" noKeyOptions [[0], [1]])[0]?).map
      SolanaTransactionRequest.idempotence_id = some none :=
  ⟨claim2_theorem.1 "vault-1" "solana_mainnet" baseOptions [[0], [1]] "base" 1 rfl
      (by decide) (by decide),
    claim2_theorem.2 "vault-1" "solana_mainnet" noKeyOptions [[0], [1]] 0 rfl (by decide)⟩

/-! ## Lemmas about the authentication session -/

/-- Truthiness of a present nonempty token. -/
theorem tokenTruthy_some {s : String} (h : s ≠ "") : tokenTruthy (some s) = true := by
  simp [tokenTruthy, h]

/-- Characterization of a truthy token field. -/
theorem tokenTruthy_eq_true_iff {t : Option String} :
    tokenTruthy t = true ↔ ∃ s, t = some s ∧ s ≠ "" := by
  cases t with
  | none => simp [tokenTruthy]
  | some s => by_cases h : s = "" <;> simp [tokenTruthy, h]

/-- A successful try-block of `authenticate` caches exactly the returned
nonempty token. -/
theorem authenticateBody_ok_cache {server : AuthServer} {st : ClientState} {tok : String}
    {st3 : ClientState} (hb : authenticateBody server st = (Except.ok tok, st3)) :
    st3.accessToken = some tok ∧ tok ≠ "" := by
  unfold authenticateBody at hb
  split at hb
  · simp at hb
  · rename_i tokenField heq
    split at hb
    · rename_i ht
      obtain ⟨s, hs, hne⟩ := tokenTruthy_eq_true_iff.mp ht
      simp only [Prod.mk.injEq, Except.ok.injEq] at hb
      obtain ⟨h1, h2⟩ := hb
      subst hs
      simp only [Option.getD_some] at h1
      subst h1
      rw [← h2]
      exact ⟨rfl, hne⟩
    · simp at hb

/-- A failing try-block of `authenticate` leaves the cache falsy when it
was falsy before. -/
theorem authenticateBody_error_cache {server : AuthServer} {st : ClientState} {e : String}
    {st3 : ClientState} (hfal : tokenTruthy st.accessToken = false)
    (hb : authenticateBody server st = (Except.error e, st3)) :
    tokenTruthy st3.accessToken = false := by
  unfold authenticateBody at hb
  split at hb
  · simp only [Prod.mk.injEq] at hb
    obtain ⟨_, h2⟩ := hb
    rw [← h2]
    exact hfal
  · rename_i tokenField heq
    split at hb
    · simp at hb
    · rename_i ht
      simp only [Prod.mk.injEq] at hb
      obtain ⟨_, h2⟩ := hb
      rw [← h2]
      simpa using ht

/-- A successful `authenticate` leaves exactly the returned (nonempty)
token in the cache. -/
theorem authenticate_ok_cache {server : AuthServer} {st : ClientState} {tok : String}
    {st2 : ClientState} {n : Nat}
    (h : authenticate server st = (Except.ok tok, st2, n)) :
    st2.accessToken = some tok ∧ tok ≠ "" := by
  unfold authenticate at h
  split at h
  · rename_i hc
    obtain ⟨s, hs, hne⟩ := tokenTruthy_eq_true_iff.mp hc
    simp only [Prod.mk.injEq, Except.ok.injEq] at h
    obtain ⟨h1, h2, _⟩ := h
    subst h2
    rw [hs] at h1
    simp only [Option.getD_some] at h1
    subst h1
    exact ⟨hs, hne⟩
  · split at h
    · rename_i tokp st2p heq
      simp only [Prod.mk.injEq, Except.ok.injEq] at h
      obtain ⟨h1, h2, _⟩ := h
      subst h1
      subst h2
      exact authenticateBody_ok_cache heq
    · simp at h

/-- A failing `authenticate` leaves the cache falsy. -/
theorem authenticate_error_state {server : AuthServer} {st : ClientState} {e : String}
    {st3 : ClientState} {n : Nat}
    (ha : authenticate server st = (Except.error e, st3, n)) :
    tokenTruthy st3.accessToken = false := by
  unfold authenticate at ha
  split at ha
  · simp at ha
  · rename_i hc
    split at ha
    · simp at ha
    · rename_i a st2p heq
      simp only [Prod.mk.injEq] at ha
      obtain ⟨_, h2, _⟩ := ha
      subst h2
      exact authenticateBody_error_cache (by simpa using hc) heq

/-- With a falsy cached token, `authenticate` performs exactly one
network call. -/
theorem authenticate_fresh_of_falsy {server : AuthServer} {st : ClientState}
    (h : tokenTruthy st.accessToken = false) : (authenticate server st).2.2 = 1 := by
  unfold authenticate
  split
  · rename_i hc
    rw [h] at hc
    simp at hc
  · split <;> rfl

/-! ## Claim C4 -/

/-- C4: with a (truthy) access token already cached, `authenticate`
returns it unchanged with zero network calls; and after any successful
`authenticate`, a second call — against any server whatsoever — returns
the identical token with zero additional network calls. -/
theorem claim4_theorem (server : AuthServer) (st : ClientState) :
    (∀ tok : String, st.accessToken = some tok → tok ≠ "" →
        authenticate server st = (Except.ok tok, st, 0))
  ∧ (∀ (server2 : AuthServer) (tok : String) (st2 : ClientState) (n : Nat),
        authenticate server st = (Except.ok tok, st2, n) →
        authenticate server2 st2 = (Except.ok tok, st2, 0)) := by
  have direct : ∀ (srv : AuthServer) (s : ClientState) (tok : String),
      s.accessToken = some tok → tok ≠ "" → authenticate srv s = (Except.ok tok, s, 0) := by
    intro srv s tok h hne
    unfold authenticate
    rw [h]
    simp [tokenTruthy_some hne]
  constructor
  · exact direct server st
  · intro server2 tok st2 n h
    obtain ⟨hc, hne⟩ := authenticate_ok_cache h
    exact direct server2 st2 tok hc hne

/-- Server replying with a fresh token. -/
def serverOkToken : AuthServer := { authOutcome := Except.ok (some "fresh-token") }

/-- Client state already holding a cached token. -/
def cachedState : ClientState := { accessToken := some "cached-token" }

/-- Witness for C4: a concrete cached session returns its token with no
network call, and a second call after a successful fresh authentication
returns the identical token with no further call. -/
theorem claim4_witness :
    authenticate serverOkToken cachedState = (Except.ok "cached-token", cachedState, 0)
  ∧ authenticate serverOkToken { accessToken := some "fresh-token" } =
      (Except.ok "fresh-token", { accessToken := some "fresh-token" }, 0) :=
  ⟨(claim4_theorem serverOkToken cachedState).1 "cached-token" rfl (by decide),
    (claim4_theorem serverOkToken { accessToken := none }).2 serverOkToken "fresh-token"
      { accessToken := some "fresh-token" } 1 rfl⟩

/-! ## Claim C10 -/

/-- C10: whenever `authenticate` fails, the cached access-token field is
left falsy (it never holds a nonempty token string), so every subsequent
`authenticate` call performs one fresh network authentication attempt. -/
theorem claim10_theorem (server : AuthServer) (st : ClientState) (e : String)
    (h : (authenticate server st).1 = Except.error e) :
    tokenTruthy ((authenticate server st).2.1).accessToken = false
  ∧ ∀ server2 : AuthServer, (authenticate server2 ((authenticate server st).2.1)).2.2 = 1 := by
  rcases ha : authenticate server st with ⟨res, st3, n⟩
  rw [ha] at h
  simp only at h
  cases res with
  | ok tok => simp at h
  | error e2 =>
    have hst3 : tokenTruthy st3.accessToken = false := authenticate_error_state ha
    exact ⟨hst3, fun server2 => authenticate_fresh_of_falsy hst3⟩

/-! ## Lemmas about the generic request -/

/-- Value of the try block for a delivered 2xx reply. -/
theorem requestTry_2xx {α : Type} (stringify : α → Option String) (raw : α → String)
    (r : HttpReply α) (h200 : 200 ≤ r.status) (h300 : r.status < 300) :
    requestTry stringify raw (TransportOutcome.response r) = Except.ok r.data := by
  show (if r.status < 200 ∨ 300 ≤ r.status then
      Except.error (ThrownError.plain (httpErrorMessage r.status (stringify r.data) (raw r.data)))
    else Except.ok r.data) = Except.ok r.data
  rw [if_neg (by omega)]

/-- Value of the try block for a delivered non-2xx reply. -/
theorem requestTry_non2xx {α : Type} (stringify : α → Option String) (raw : α → String)
    (r : HttpReply α) (hs : r.status < 200 ∨ 300 ≤ r.status) :
    requestTry stringify raw (TransportOutcome.response r) =
      Except.error (ThrownError.plain
        (httpErrorMessage r.status (stringify r.data) (raw r.data))) := by
  show (if r.status < 200 ∨ 300 ≤ r.status then
      Except.error (ThrownError.plain (httpErrorMessage r.status (stringify r.data) (raw r.data)))
    else Except.ok r.data) = _
  rw [if_pos hs]

/-- A successful try block comes from a delivered reply with a 2xx
status, and returns exactly that reply body. -/
theorem requestTry_ok {α : Type} {stringify : α → Option String} {raw : α → String}
    {transport : TransportOutcome α} {v : α}
    (h : requestTry stringify raw transport = Except.ok v) :
    ∃ r, transport = TransportOutcome.response r ∧ 200 ≤ r.status ∧ r.status < 300 ∧
      v = r.data := by
  cases transport with
  | failure msg =>
    rw [show requestTry stringify raw (TransportOutcome.failure msg) =
        Except.error (ThrownError.plain msg) from rfl] at h
    simp at h
  | response r =>
    by_cases hs : r.status < 200 ∨ 300 ≤ r.status
    · rw [requestTry_non2xx stringify raw r hs] at h
      simp at h
    · push_neg at hs
      rw [requestTry_2xx stringify raw r hs.1 hs.2] at h
      simp only [Except.ok.injEq] at h
      exact ⟨r, rfl, hs.1, hs.2, h.symm⟩

/-- A successful `requestCore` comes from a delivered reply with a 2xx
status, and returns exactly that reply body. -/
theorem requestCore_ok {α : Type} {stringify : α → Option String} {raw : α → String}
    {transport : TransportOutcome α} {v : α}
    (h : requestCore stringify raw transport = Except.ok v) :
    ∃ r, transport = TransportOutcome.response r ∧ 200 ≤ r.status ∧ r.status < 300 ∧
      v = r.data := by
  unfold requestCore at h
  split at h
  · rename_i v2 heq
    simp only [Except.ok.injEq] at h
    subst h
    exact requestTry_ok heq
  · simp at h

/-- A terminal transaction state is not transient. -/
theorem isTransientState_false_of_terminal {s : TransactionState}
    (h : isTerminalState s = true) : isTransientState s = false := by
  cases s <;> first | rfl | exact absurd h (by decide)

/-- A successful `request` also comes from a delivered 2xx reply. -/
theorem request_ok {α : Type} {stringify : α → Option String} {raw : α → String}
    {server : AuthServer} {transport : TransportOutcome α} {st : ClientState}
    {v : α} {st2 : ClientState}
    (h : request stringify raw server transport st = (Except.ok v, st2)) :
    ∃ r, transport = TransportOutcome.response r ∧ 200 ≤ r.status ∧ r.status < 300 ∧
      v = r.data := by
  unfold request at h
  split at h
  · simp at h
  · simp only [Prod.mk.injEq] at h
    exact requestCore_ok h.1

/-! ## Claim C3 -/

/-- C3: under the server contract that the submit-and-wait endpoint only
delivers a successful reply once the job is terminal, every successful
`createAndWaitTransaction` call returns a job whose state is terminal
(Completed, Failed or Aborted) and not transient. -/
theorem claim3_theorem (stringify : TransactionResponse → Option String)
    (raw : TransactionResponse → String) (server : AuthServer)
    (transport : TransportOutcome TransactionResponse) (st : ClientState)
    (hcontract : ∀ r : HttpReply TransactionResponse,
      transport = TransportOutcome.response r → 200 ≤ r.status → r.status < 300 →
      isTerminalState r.data.state = true)
    (job : TransactionResponse) (st2 : ClientState)
    (hok : createAndWaitTransaction stringify raw server transport st = (Except.ok job, st2)) :
    isTerminalState job.state = true ∧ isTransientState job.state = false := by
  obtain ⟨r, htr, h1, h2, h3⟩ := request_ok hok
  subst h3
  have hterm := hcontract r htr h1 h2
  exact ⟨hterm, isTransientState_false_of_terminal hterm⟩

/-- Completed sample job, as the submit-and-wait endpoint would return. -/
def sampleCompletedJob : TransactionResponse :=
  { id := "tx-3"
    creationTime := "2024-01-01T00:00:00Z"
    modificationTime := "2024-01-01T00:00:30Z"
    state := TransactionState.completed
    vaultId := "vault-1"
    type := "solana_transaction"
    chainUniqueId := "solana_mainnet"
    chainName := "Solana Mainnet"
    transactionHash := some "hash-1"
    signatures := none }

/-- Witness for C3: a concrete submit-and-wait exchange delivering the
completed sample job yields a terminal, non-transient state. -/
theorem claim3_witness :
    isTerminalState sampleCompletedJob.state = true
  ∧ isTransientState sampleCompletedJob.state = false :=
  claim3_theorem (fun _ => some "") (fun _ => "") serverOkToken
    (TransportOutcome.response { status := 200, data := sampleCompletedJob })
    { accessToken := none }
    (fun r hr _ _ => by cases hr; rfl)
    sampleCompletedJob { accessToken := some "fresh-token" } rfl

/-! ## Claim C5 -/

/-- C5: a reply with status outside [200,300) makes the request fail with
an error whose message contains both the numeric status code and the
response body (the serialized JSON body when `JSON.stringify` succeeds,
otherwise the raw body text), while a status inside [200,300) raises no
error and returns the response data. -/
theorem claim5_theorem {α : Type} (stringify : α → Option String) (raw : α → String)
    (r : HttpReply α) :
    ((r.status < 200 ∨ 300 ≤ r.status) → ∀ d, stringify r.data = some d →
      ∃ e, requestCore stringify raw (TransportOutcome.response r) = Except.error e
        ∧ (∃ a b, e = a ++ (toString r.status ++ b))
        ∧ (∃ a2 b2, e = a2 ++ (d ++ b2)))
  ∧ ((r.status < 200 ∨ 300 ≤ r.status) → stringify r.data = none →
      ∃ e, requestCore stringify raw (TransportOutcome.response r) = Except.error e
        ∧ (∃ a b, e = a ++ (toString r.status ++ b))
        ∧ (∃ a2 b2, e = a2 ++ (raw r.data ++ b2)))
  ∧ (200 ≤ r.status → r.status < 300 →
      requestCore stringify raw (TransportOutcome.response r) = Except.ok r.data) := by
  refine ⟨?_, ?_, ?_⟩
  · intro hs d hd
    have htry := requestTry_non2xx stringify raw r hs
    have hcore : requestCore stringify raw (TransportOutcome.response r) =
        Except.error ("Network error occurred: " ++
          ("HTTP error occurred: status = " ++ toString r.status ++ "\nError details: " ++ d)) := by
      unfold requestCore
      rw [htry, hd]
      rfl
    refine ⟨_, hcore, ⟨"Network error occurred: " ++ "HTTP error occurred: status = ",
        "\nError details: " ++ d, ?_⟩,
      ⟨"Network error occurred: " ++ ("HTTP error occurred: status = " ++ toString r.status)
        ++ "\nError details: ", "", ?_⟩⟩
    · apply String.ext
      simp [String.data_append, List.append_assoc]
    · apply String.ext
      simp [String.data_append, List.append_assoc]
  · intro hs hd
    have htry := requestTry_non2xx stringify raw r hs
    have hcore : requestCore stringify raw (TransportOutcome.response r) =
        Except.error ("Network error occurred: " ++
          ("HTTP error occurred: status = " ++ toString r.status ++ "\nRaw response: "
            ++ raw r.data)) := by
      unfold requestCore
      rw [htry, hd]
      rfl
    refine ⟨_, hcore, ⟨"Network error occurred: " ++ "HTTP error occurred: status = ",
        "\nRaw response: " ++ raw r.data, ?_⟩,
      ⟨"Network error occurred: " ++ ("HTTP error occurred: status = " ++ toString r.status)
        ++ "\nRaw response: ", "", ?_⟩⟩
    · apply String.ext
      simp [String.data_append, List.append_assoc]
    · apply String.ext
      simp [String.data_append, List.append_assoc]
  · intro h200 h300
    unfold requestCore
    rw [requestTry_2xx stringify raw r h200 h300]

/-- JSON body of the sample failing reply. -/
def jsonInvalidVault : String := "\x7b\"error\":\"invalid vault\"\x7d"

/-- Witness for C5: a status-400 reply with body
`\x7b"error":"invalid vault"\x7d` produces an error containing both `400`
and the body text, and a status-204 reply returns its body unchanged. -/
theorem claim5_witness :
    (∃ e, requestCore (fun s : String => some s) (fun s => s)
        (TransportOutcome.response { status := 400, data := jsonInvalidVault }) = Except.error e
      ∧ (∃ a b, e = a ++ (toString 400 ++ b))
      ∧ (∃ a2 b2, e = a2 ++ (jsonInvalidVault ++ b2)))
  ∧ requestCore (fun s : String => some s) (fun s => s)
      (TransportOutcome.response { status := 204, data := "ok-body" }) = Except.ok "ok-body" :=
  ⟨(claim5_theorem (fun s : String => some s) (fun s => s)
      { status := 400, data := jsonInvalidVault }).1 (by decide) jsonInvalidVault rfl,
    (claim5_theorem (fun s : String => some s) (fun s => s)
      { status := 204, data := "ok-body" }).2.2 (by decide) (by decide)⟩

/-! ## Claim C6 -/

/-- C6 (code defect exhibit): a connection failure surfaces as
`Network error occurred: <transport message>` — but a non-2xx reply is
rewrapped by the same catch clause under the identical
`Network error occurred: ` prefix (because the thrown HTTP `Error` has no
`response` property), so the two failure modes do not surface as distinct
error kinds. -/
theorem claim6_theorem :
    requestCore (fun s : String => some s) (fun s => s)
        (TransportOutcome.failure "connect ECONNREFUSED 127.0.0.1:443") =
      Except.error ("Network error occurred: " ++ "connect ECONNREFUSED 127.0.0.1:443")
  ∧ requestCore (fun s : String => some s) (fun s => s)
        (TransportOutcome.response { status := 400, data := jsonInvalidVault }) =
      Except.error ("Network error occurred: " ++
        ("HTTP error occurred: status = " ++ toString 400 ++ "\nError details: "
          ++ jsonInvalidVault)) :=
  ⟨rfl, rfl⟩

/-- Server whose auth endpoint replies without any token field. -/
def serverNoToken : AuthServer := { authOutcome := Except.ok none }

/-! ## Claim C7 -/

/-- C7 counterexample: the authentication layer does not rethrow errors
unchanged in kind — the missing-token failure `No access token received
from Fordefi` thrown inside the try block is replaced by the generic
`Failed to authenticate with Fordefi` error by the catch clause. -/
theorem claim7_counterexample :
    (authenticateBody { authOutcome := Except.ok none } { accessToken := none }).1 =
      Except.error "No access token received from Fordefi"
  ∧ (authenticate { authOutcome := Except.ok none } { accessToken := none }).1 =
      Except.error "Failed to authenticate with Fordefi"
  ∧ ("Failed to authenticate with Fordefi" : String) ≠
      "No access token received from Fordefi" :=
  ⟨rfl, rfl, by decide⟩

/-- C7 (amended): the transaction-submission layer and the batch adapter
propagate errors unchanged (`createAndWaitTransaction` returns exactly
the result of `request`, and a member error surfaces verbatim from the
batch combination), but the authentication layer replaces every failure
of its try block — HTTP, transport, or missing token — by the single
generic error `Failed to authenticate with Fordefi`. -/
theorem claim7_theorem (stringify : TransactionResponse → Option String)
    (raw : TransactionResponse → String) (server : AuthServer)
    (transport : TransportOutcome TransactionResponse) (st : ClientState) :
    createAndWaitTransaction stringify raw server transport st =
      request stringify raw server transport st
  ∧ (∀ (l : List (Except String (List Nat))) (e : String),
      collectResults (Except.error e :: l) = Except.error e)
  ∧ (∀ e, tokenTruthy st.accessToken = false →
      (authenticateBody server st).1 = Except.error e →
      (authenticate server st).1 = Except.error "Failed to authenticate with Fordefi") := by
  refine ⟨rfl, fun l e => rfl, ?_⟩
  intro e hfal he
  unfold authenticate
  split
  · rename_i hc
    rw [hfal] at hc
    simp at hc
  · split
    · rename_i tokp st2p heq
      rw [heq] at he
      simp at he
    · rfl

/-- Witness for C7: the concrete missing-token failure surfaces from
`authenticate` as the generic authentication error. -/
theorem claim7_witness :
    (authenticate serverNoToken { accessToken := none }).1 =
      Except.error "Failed to authenticate with Fordefi" :=
  (claim7_theorem (fun _ => some "") (fun _ => "") serverNoToken
      (TransportOutcome.failure "unused") { accessToken := none }).2.2
    "No access token received from Fordefi" rfl rfl

/-! ## Claim C9 -/

/-- Initial race state: empty token cache, two callers yet to run. -/
def twoCallersStart : RaceState :=
  { cache := none, callers := [CallerPhase.start, CallerPhase.start], requestsIssued := 0 }

/-- C9 (code defect exhibit): under the interleaving in which both
concurrent first callers pass the falsy-cache check before either auth
response arrives, the client issues two auth POSTs instead of sharing a
single in-flight authentication; both callers still end with the same
token, which the second response wrote last. -/
theorem claim9_theorem :
    raceRun { authOutcome := Except.ok (some "fresh-token") } twoCallersStart [0, 1, 0, 1] =
      { cache := some "fresh-token"
        callers := [CallerPhase.done (Except.ok "fresh-token"),
          CallerPhase.done (Except.ok "fresh-token")]
        requestsIssued := 2 } := rfl



/-- Witness for C10: after the concrete failing authentication against a
server that returns no token, the cache is falsy and the next call makes
one fresh network attempt. -/
theorem claim10_witness :
    tokenTruthy ((authenticate serverNoToken { accessToken := none }).2.1).accessToken = false
  ∧ (authenticate serverOkToken
      ((authenticate serverNoToken { accessToken := none }).2.1)).2.2 = 1 := by
  have h := claim10_theorem serverNoToken { accessToken := none }
    "Failed to authenticate with Fordefi" rfl
  exact ⟨h.1, h.2 serverOkToken⟩

end Fordefi
